import Mathlib

/-!
Shallow embedding of Fabricdw's configuration and installation-removal logic
(`fabricdw/common/config.py` and `fabricdw/installations/remove.py`).

Python dicts holding JSON data are modelled as association lists over a
JSON-like value type `JVal`; filesystem queries (`os.path.exists`,
`os.path.isdir`) are passed in as boolean-valued oracles; the confirmation
prompt (`yes_no_question`) is passed in as a boolean; the recursive directory
deletion (`remove_dir`) is recorded in the result instead of performed.
Mutations of the process-global `CONFIG` object are modelled by explicit
state passing; a raised Python exception is modelled by `Except`/`Option`.
-/

set_option autoImplicit false

namespace Fabricdw

/-- JSON-compatible values, the payload type of the Python dicts that
`to_dict`/`from_dict` in `config.py` operate on. -/
inductive JVal where
  | num : Rat → JVal
  | str : String → JVal
  | obj : List (String × JVal) → JVal
  | arr : List JVal → JVal

/-- A Python dict with JSON-compatible values, as an association list
(first binding wins, matching dict key uniqueness). -/
abbrev JDict := List (String × JVal)

/-- Lookup of `key` in a dict: `source[key]` / `key in source`. -/
def jlookup : JDict → String → Option JVal
  | [], _ => none
  | (k, v) :: rest, key => if k = key then some v else jlookup rest key

/-- `_default_get` from config.py: `source[key] if key in source else fallback`. -/
def default_get (source : JDict) (key : String) (fallback : JVal) : JVal :=
  match jlookup source key with
  | some v => v
  | none => fallback

/-- The `Installation` record of config.py: a name and a root path.
(The colorama pretty-printing helpers are presentation-only and not modelled.) -/
structure Installation where
  name : String
  root : String
deriving DecidableEq, Repr

/-- `Installation.__eq__`: equality is by `name` only, the `root` is ignored.
This is the equality used by Python's `list.remove`. -/
def Installation.eqPy (a b : Installation) : Bool :=
  a.name == b.name

/-- `Installation.from_dict`: reads `data["name"]` and `data["root"]`.
A missing key raises `KeyError` in Python, modelled as `none`; the model
additionally requires the values to be strings, which is what every dict
produced by `Installation.to_dict` contains. -/
def Installation.from_dict (data : JDict) : Option Installation :=
  match jlookup data "name", jlookup data "root" with
  | some (.str n), some (.str r) => some ⟨n, r⟩
  | _, _ => none

/-- `Installation.to_dict`: `{ 'root': self.root, 'name': self.name }`. -/
def Installation.to_dict (i : Installation) : JDict :=
  [("root", .str i.root), ("name", .str i.name)]

/-- The `Defaults` record of config.py. Field values are kept as raw `JVal`s,
as Python stores whatever the dict holds without conversion. -/
structure Defaults where
  min_ram : JVal
  max_ram : JVal
  idle_time : JVal
  backups : JVal

/-- `Defaults.__init__`: each field independently falls back to a hardcoded
default (0.5, 6, 0, 5) via `_default_get`. -/
def Defaults.init (data : JDict) : Defaults :=
  { min_ram := default_get data "min-ram" (.num 0.5)
    max_ram := default_get data "max-ram" (.num 6)
    idle_time := default_get data "idle_time" (.num 0)
    backups := default_get data "backups" (.num 5) }

/-- `Defaults.from_dict`: `cls(data)`. -/
def Defaults.from_dict (data : JDict) : Defaults :=
  Defaults.init data

/-- `Defaults.to_dict`: emits all four keys. -/
def Defaults.to_dict (d : Defaults) : JDict :=
  [("min-ram", d.min_ram), ("max-ram", d.max_ram),
   ("idle_time", d.idle_time), ("backups", d.backups)]

/-- The `Config` aggregate of config.py: defaults plus the ordered list of
installations. -/
structure Config where
  defaults : Defaults
  installations : List Installation

/-- `Config.get_installation`: linear scan, first record whose `name` equals
the argument, `None` if absent. -/
def Config.get_installation (c : Config) (name : String) : Option Installation :=
  c.installations.find? (fun installation => installation.name == name)

/-- Python's `list.remove(v)` on a list of `Installation`s: removes the first
element equal to `v` under `Installation.__eq__` (name-only equality);
`none` models the `ValueError` raised when no element matches. -/
def listRemove : List Installation → Installation → Option (List Installation)
  | [], _ => none
  | x :: xs, v => if Installation.eqPy x v then some xs else (listRemove xs v).map (x :: ·)

/-- `Config.remove_installation`: `self.installations.remove(installation)`.
`none` models the uncaught `ValueError` when the installation is not a member. -/
def Config.remove_installation (c : Config) (installation : Installation) : Option Config :=
  (listRemove c.installations installation).map (fun l => { c with installations := l })

/-- One step of the list comprehension in `Config.from_dict`: each entry of
`data['installations']` is a dict handed to `Installation.from_dict`. -/
def parseInstallationEntry : JVal → Option Installation
  | .obj o => Installation.from_dict o
  | _ => none

/-- `Config.from_dict`: `data['defaults']` and `data['installations']` are
required (a missing key raises `KeyError`, modelled as `none`); every entry of
the installations array is deserialized with `Installation.from_dict`. -/
def Config.from_dict (data : JDict) : Option Config :=
  match jlookup data "defaults", jlookup data "installations" with
  | some (.obj dd), some (.arr insts) =>
      (insts.mapM parseInstallationEntry).map
        (fun installations => ⟨Defaults.from_dict dd, installations⟩)
  | _, _ => none

/-- `Config.to_dict`. -/
def Config.to_dict (c : Config) : JDict :=
  [("defaults", .obj c.defaults.to_dict),
   ("installations", .arr (c.installations.map (fun i => .obj i.to_dict)))]

/-- Exceptions raised by the registry operations. `valueError` is Python's
built-in `ValueError` raised by `list.remove` on a non-member. -/
inductive PyError where
  | installationDoesNotExist (name : String)
  | installationAlreadyExist (installation : Installation)
  | valueError
deriving DecidableEq, Repr

/-- `Installation.ensure_exists` from config.py. `pexists`/`pisdir` are the
`os.path.exists`/`os.path.isdir` oracles. In the source `remove_if_missing`
defaults to `True`. Returns the (possibly self-healed) config together with
the outcome: the live installation, or the raised exception. -/
def Installation.ensure_exists (pexists pisdir : String → Bool) (name : String)
    (remove_if_missing : Bool) (cfg : Config) : Config × Except PyError Installation :=
  -- body of the `if` in the source: optional self-heal removal, then raise
  let missing : Config × Except PyError Installation :=
    if remove_if_missing then
      match cfg.remove_installation ⟨name, ""⟩ with
      | some cfg' => (cfg', .error (.installationDoesNotExist name))
      | none => (cfg, .error .valueError)
    else (cfg, .error (.installationDoesNotExist name))
  match cfg.get_installation name with
  | none => missing
  | some installation =>
    if !(pexists installation.root) || !(pisdir installation.root) then missing
    else (cfg, .ok installation)

/-- `Installation.ensure_does_not_exist` from config.py: raises
`InstallationAlreadyExistError(installation)` when a record with the name
exists, returns `None` otherwise. It only reads the config. -/
def Installation.ensure_does_not_exist (cfg : Config) (name : String) : Except PyError Unit :=
  match cfg.get_installation name with
  | some installation => .error (.installationAlreadyExist installation)
  | none => .ok ()

/-- `write_config` from config.py: serializes the config with `to_dict` and
writes it to the config file. The model returns the dict that is written. -/
def write_config (cfg : Config) : JDict :=
  cfg.to_dict

/-- Result of `_remove_installation` in remove.py: the returned boolean plus
the list of roots passed to `remove_dir` (the prints are presentation only). -/
structure RemoveResult where
  ret : Bool
  deleted : List String
deriving DecidableEq, Repr

/-- `_remove_installation` from remove.py. `confirm` is the answer of the
external `yes_no_question` prompt. -/
def removeInstallationInner (pexists pisdir : String → Bool) (confirm : Bool)
    (active_installation : Option Installation) : RemoveResult :=
  match active_installation with
  | none => ⟨false, []⟩
  | some installation =>
    if !(pexists installation.root) || !(pisdir installation.root) then ⟨true, []⟩
    else if confirm then ⟨true, [installation.root]⟩
    else ⟨false, []⟩

/-- `remove_installation` from remove.py: looks up the installation, runs
`_remove_installation`, and on a `True` result removes the record from the
in-memory config. `none` models an uncaught exception from `list.remove`. -/
def remove_installation (pexists pisdir : String → Bool) (confirm : Bool)
    (cfg : Config) (name : String) : Option (Config × RemoveResult) :=
  let active_installation := cfg.get_installation name
  let r := removeInstallationInner pexists pisdir confirm active_installation
  if r.ret then
    match active_installation with
    | some installation => (cfg.remove_installation installation).map (fun cfg' => (cfg', r))
    | none => none
  else
    some (cfg, r)

/-- Modelled from the spec: the CLI dispatch layer that invokes the remove
command and then persists the updated config is not under src/ (remove.py's
`remove_installation` itself does not call `write_config`). Per the spec
(§4.3 step 5, §6, §8), on a success path the updated `Config` is persisted
via `write_config` and on a failure path no persist is triggered. `store` is
the current content of the config file; the Python entry point returns
`None`, so the model's return value is only the resulting state. -/
def remove_installation_command (pexists pisdir : String → Bool) (confirm : Bool)
    (cfg : Config) (name : String) (store : JDict) : Option (Config × JDict × RemoveResult) :=
  match remove_installation pexists pisdir confirm cfg name with
  | none => none
  | some (cfg', r) => some (cfg', if r.ret then write_config cfg' else store, r)

end Fabricdw

namespace Fabricdw

/-- Computation rule for the `list.remove` model: it yields the list with the
first name-match erased when some element matches, and fails otherwise. -/
theorem listRemove_eq (v : Installation) : ∀ xs : List Installation,
    listRemove xs v =
      if xs.any (fun x => x.name == v.name) then
        some (xs.eraseP (fun x => x.name == v.name))
      else none
  | [] => rfl
  | x :: xs => by
      simp only [listRemove, Installation.eqPy, listRemove_eq v xs, List.any_cons,
        List.eraseP_cons]
      cases h : x.name == v.name with
      | true => simp [h]
      | false =>
          cases hany : xs.any (fun x => x.name == v.name) with
          | true => simp [h, hany]
          | false => simp [h, hany]

/-- When `get_installation` found a record for `name`, removing any value with
that name removes the first name-matching record and succeeds. -/
theorem remove_installation_of_found {cfg : Config} {name : String} {inst : Installation}
    (hfound : cfg.get_installation name = some inst) (v : Installation) (hv : v.name = name) :
    cfg.remove_installation v =
      some { cfg with installations := cfg.installations.eraseP (fun r => r.name == name) } := by
  subst hv
  have hfound' : cfg.installations.find? (fun r => r.name == v.name) = some inst := hfound
  have hmem : inst ∈ cfg.installations := List.mem_of_find?_eq_some hfound'
  have hp := List.find?_some hfound'
  have hany : cfg.installations.any (fun r => r.name == v.name) = true :=
    List.any_eq_true.2 ⟨inst, hmem, hp⟩
  unfold Config.remove_installation
  rw [listRemove_eq]
  simp [hany]

/-- Claim C9: `Config.remove_installation i` removes exactly the first record
whose name equals `i`'s name (root ignored, per `Installation.__eq__`), and
fails (Python `ValueError`, the not-found error, modelled as `none`) when no
record with that name is a member — removing a non-member is an error, not a
no-op. -/
theorem remove_installation_spec (c : Config) (i : Installation) :
    c.remove_installation i =
      if c.installations.any (fun r => r.name == i.name) then
        some { c with installations := c.installations.eraseP (fun r => r.name == i.name) }
      else none := by
  unfold Config.remove_installation
  rw [listRemove_eq]
  split <;> simp

/-- Serializing an installation and deserializing it restores it. -/
theorem installation_from_to (i : Installation) :
    Installation.from_dict i.to_dict = some i := rfl

/-- Serializing defaults and deserializing them restores them: `to_dict`
emits all four keys, so no fallback fires. -/
theorem defaults_from_to (d : Defaults) :
    Defaults.from_dict d.to_dict = d := rfl

/-- Deserializing the serialized installations array restores the list. -/
theorem parse_map : ∀ l : List Installation,
    (l.map (fun i => JVal.obj i.to_dict)).mapM parseInstallationEntry = some l
  | [] => rfl
  | i :: l => by
      simp only [List.map_cons, List.mapM_cons, parseInstallationEntry,
        installation_from_to, parse_map l]
      rfl

/-- Full config round trip: `from_dict` is a left inverse of `to_dict`. -/
theorem config_from_to (c : Config) : Config.from_dict c.to_dict = some c := by
  show ((c.installations.map (fun i => JVal.obj i.to_dict)).mapM parseInstallationEntry).map
    (fun installations => Config.mk (Defaults.from_dict c.defaults.to_dict) installations)
      = some c
  rw [parse_map, defaults_from_to]
  rfl

/-- Claim C5: for every `Config` value `c`, `Config.from_dict (c.to_dict)`
yields a config whose installations have the same sequence of (name, root)
pairs as `c`'s and whose defaults fields equal `c`'s. -/
theorem config_round_trip (c : Config) :
    ∃ c', Config.from_dict c.to_dict = some c'
      ∧ c'.installations.map (fun i => (i.name, i.root))
          = c.installations.map (fun i => (i.name, i.root))
      ∧ c'.defaults.min_ram = c.defaults.min_ram
      ∧ c'.defaults.max_ram = c.defaults.max_ram
      ∧ c'.defaults.idle_time = c.defaults.idle_time
      ∧ c'.defaults.backups = c.defaults.backups :=
  ⟨c, config_from_to c, rfl, rfl, rfl, rfl, rfl⟩

/-- `_default_get` returns the stored value when the key is present and the
fallback otherwise. -/
theorem default_get_eq (s : JDict) (k : String) (f : JVal) :
    default_get s k f = (jlookup s k).getD f := by
  unfold default_get
  cases jlookup s k <;> rfl

/-- Claim C6: `Defaults.from_dict` resolves each of the four fields
independently — a field takes the dict's value when its key ("min-ram",
"max-ram", "idle_time", "backups") is present and otherwise the hardcoded
fallback (0.5, 6, 0, 5); in particular `from_dict {}` yields (0.5, 6, 0, 5)
and `from_dict {"min-ram": 1.0}` yields (1.0, 6, 0, 5). -/
theorem defaults_default_merge (d : JDict) :
    ((Defaults.from_dict d).min_ram = (jlookup d "min-ram").getD (.num 0.5)
      ∧ (Defaults.from_dict d).max_ram = (jlookup d "max-ram").getD (.num 6)
      ∧ (Defaults.from_dict d).idle_time = (jlookup d "idle_time").getD (.num 0)
      ∧ (Defaults.from_dict d).backups = (jlookup d "backups").getD (.num 5))
    ∧ Defaults.from_dict [] = ⟨.num 0.5, .num 6, .num 0, .num 5⟩
    ∧ Defaults.from_dict [("min-ram", .num 1.0)] = ⟨.num 1.0, .num 6, .num 0, .num 5⟩ :=
  ⟨⟨default_get_eq d "min-ram" _, default_get_eq d "max-ram" _,
    default_get_eq d "idle_time" _, default_get_eq d "backups" _⟩, rfl, rfl⟩

/-- Claim C4: `ensure_does_not_exist name` raises
`InstallationAlreadyExistError` carrying the conflicting record if and only
if `get_installation name` returns a record; when no record exists it returns
nothing. The function never consults the filesystem (it takes no
exists/isdir oracle), so the outcome is independent of directory liveness,
and it only reads the config (its type carries no updated config). -/
theorem ensure_does_not_exist_spec (cfg : Config) (name : String) :
    (Installation.ensure_does_not_exist cfg name = .ok () ↔ cfg.get_installation name = none)
    ∧ ∀ installation, cfg.get_installation name = some installation →
        Installation.ensure_does_not_exist cfg name
          = .error (.installationAlreadyExist installation) := by
  unfold Installation.ensure_does_not_exist
  cases h : cfg.get_installation name <;> simp [h]

/-- Witness for claim C4 at a one-record registry: the record named "a" is
reported as already existing. -/
theorem ensure_does_not_exist_spec_witness :
    Installation.ensure_does_not_exist ⟨Defaults.from_dict [], [⟨"a", "/tmp/a"⟩]⟩ "a"
      = .error (.installationAlreadyExist ⟨"a", "/tmp/a"⟩) :=
  (ensure_does_not_exist_spec ⟨Defaults.from_dict [], [⟨"a", "/tmp/a"⟩]⟩ "a").2
    ⟨"a", "/tmp/a"⟩ rfl

/-- Claim C3: on a config containing a record named `name` whose root fails
the live-directory check, `ensure_exists name` with `remove_if_missing = true`
removes that record from the installations list and raises
`InstallationDoesNotExistError` carrying `name`. -/
theorem ensure_exists_stale_self_heals (pexists pisdir : String → Bool) (cfg : Config)
    (name : String) (inst : Installation)
    (hfound : cfg.get_installation name = some inst)
    (hstale : pexists inst.root = false ∨ pisdir inst.root = false) :
    Installation.ensure_exists pexists pisdir name true cfg =
      ({ cfg with installations := cfg.installations.eraseP (fun r => r.name == name) },
        .error (.installationDoesNotExist name)) := by
  have hcond : (!(pexists inst.root) || !(pisdir inst.root)) = true := by
    cases hstale with
    | inl h => simp [h]
    | inr h => simp [h]
  unfold Installation.ensure_exists
  rw [hfound, remove_installation_of_found hfound ⟨name, ""⟩ rfl]
  simp [hcond]

/-- Witness for claim C3: a registry holding a stale record named "a"
self-heals to the empty registry and raises the does-not-exist error. -/
theorem ensure_exists_stale_self_heals_witness :
    Installation.ensure_exists (fun _ => false) (fun _ => false) "a" true
        ⟨Defaults.from_dict [], [⟨"a", "/tmp/a"⟩]⟩
      = (⟨Defaults.from_dict [], []⟩, .error (.installationDoesNotExist "a")) :=
  ensure_exists_stale_self_heals (fun _ => false) (fun _ => false)
    ⟨Defaults.from_dict [], [⟨"a", "/tmp/a"⟩]⟩ "a" ⟨"a", "/tmp/a"⟩ rfl (Or.inl rfl)

/-- Claim C10: with `remove_if_missing = false`, `ensure_exists` on an absent
name, or on a record whose root is not a live directory, raises
`InstallationDoesNotExistError` and returns the config unchanged — no
self-healing removal is attempted. -/
theorem ensure_exists_no_remove (pexists pisdir : String → Bool) (cfg : Config) (name : String)
    (h : cfg.get_installation name = none ∨
      ∃ inst, cfg.get_installation name = some inst
        ∧ (pexists inst.root = false ∨ pisdir inst.root = false)) :
    Installation.ensure_exists pexists pisdir name false cfg
      = (cfg, .error (.installationDoesNotExist name)) := by
  unfold Installation.ensure_exists
  cases h with
  | inl h => rw [h]; rfl
  | inr h =>
      obtain ⟨inst, hfound, hstale⟩ := h
      have hcond : (!(pexists inst.root) || !(pisdir inst.root)) = true := by
        cases hstale with
        | inl h => simp [h]
        | inr h => simp [h]
      rw [hfound]
      simp [hcond]

/-- Witness for claim C10: an empty registry with `remove_if_missing = false`
raises the does-not-exist error and stays empty. -/
theorem ensure_exists_no_remove_witness :
    Installation.ensure_exists (fun _ => false) (fun _ => false) "a" false
        ⟨Defaults.from_dict [], []⟩
      = (⟨Defaults.from_dict [], []⟩, .error (.installationDoesNotExist "a")) :=
  ensure_exists_no_remove (fun _ => false) (fun _ => false)
    ⟨Defaults.from_dict [], []⟩ "a" (Or.inl rfl)

/-- Claim C1, evaluated at the failing input: on a config whose installations
list contains no record named "a", `ensure_exists "a"` with the source default
`remove_if_missing = True` does NOT raise `InstallationDoesNotExistError`:
the removal step is attempted on the non-member `Installation("a", "")` and
`list.remove` raises `ValueError` first (the config is left unchanged only
because the removal itself fails). The second conjunct records that the name
is genuinely absent. -/
theorem ensure_exists_absent_default_value_error :
    Installation.ensure_exists (fun _ => false) (fun _ => false) "a" true
        ⟨Defaults.from_dict [], []⟩
      = (⟨Defaults.from_dict [], []⟩, .error .valueError)
    ∧ (⟨Defaults.from_dict [], []⟩ : Config).get_installation "a" = none :=
  ⟨rfl, rfl⟩

end Fabricdw

namespace Fabricdw

/-- The record returned by a successful `get_installation name` carries
exactly that name. -/
theorem get_installation_name {cfg : Config} {name : String} {inst : Installation}
    (hfound : cfg.get_installation name = some inst) : inst.name = name := by
  have hfound' : cfg.installations.find? (fun r => r.name == name) = some inst := hfound
  have hp := List.find?_some hfound'
  exact eq_of_beq hp

/-- remove.py on a found-but-stale record: `_remove_installation` returns
`True` with no deletion, and the caller erases the record. -/
theorem remove_installation_found_stale {pexists pisdir : String → Bool} (confirm : Bool)
    {cfg : Config} {name : String} {inst : Installation}
    (hfound : cfg.get_installation name = some inst)
    (hcond : (!(pexists inst.root) || !(pisdir inst.root)) = true) :
    remove_installation pexists pisdir confirm cfg name =
      some ({ cfg with installations := cfg.installations.eraseP (fun r => r.name == name) },
        ⟨true, []⟩) := by
  unfold remove_installation removeInstallationInner
  rw [hfound]
  simp only [hcond]
  rw [remove_installation_of_found hfound inst (get_installation_name hfound)]
  rfl

/-- remove.py on a live record with the prompt confirmed: the root is deleted
and the record is erased. -/
theorem remove_installation_found_live_confirmed {pexists pisdir : String → Bool}
    {cfg : Config} {name : String} {inst : Installation}
    (hfound : cfg.get_installation name = some inst)
    (hcond : (!(pexists inst.root) || !(pisdir inst.root)) = false) :
    remove_installation pexists pisdir true cfg name =
      some ({ cfg with installations := cfg.installations.eraseP (fun r => r.name == name) },
        ⟨true, [inst.root]⟩) := by
  unfold remove_installation removeInstallationInner
  rw [hfound]
  simp only [hcond]
  rw [remove_installation_of_found hfound inst (get_installation_name hfound)]
  rfl

/-- remove.py on a live record with the prompt declined: nothing changes. -/
theorem remove_installation_found_live_declined {pexists pisdir : String → Bool}
    {cfg : Config} {name : String} {inst : Installation}
    (hfound : cfg.get_installation name = some inst)
    (hcond : (!(pexists inst.root) || !(pisdir inst.root)) = false) :
    remove_installation pexists pisdir false cfg name = some (cfg, ⟨false, []⟩) := by
  unfold remove_installation removeInstallationInner
  rw [hfound]
  simp only [hcond]
  rfl

/-- remove.py on an absent name: failure reported, nothing changes. -/
theorem remove_installation_absent {pexists pisdir : String → Bool} (confirm : Bool)
    {cfg : Config} {name : String}
    (hfound : cfg.get_installation name = none) :
    remove_installation pexists pisdir confirm cfg name = some (cfg, ⟨false, []⟩) := by
  unfold remove_installation removeInstallationInner
  rw [hfound]
  rfl

/-- Claim C7: on a registry containing a record named `name` whose root fails
the live-directory check, the remove operation returns success (`True`), no
directory is deleted, and the caller removes that record from the in-memory
installations list. -/
theorem remove_stale_reports_gone (pexists pisdir : String → Bool) (confirm : Bool)
    (cfg : Config) (name : String) (inst : Installation)
    (hfound : cfg.get_installation name = some inst)
    (hstale : pexists inst.root = false ∨ pisdir inst.root = false) :
    remove_installation pexists pisdir confirm cfg name =
      some ({ cfg with installations := cfg.installations.eraseP (fun r => r.name == name) },
        ⟨true, []⟩) := by
  have hcond : (!(pexists inst.root) || !(pisdir inst.root)) = true := by
    cases hstale with
    | inl h => simp [h]
    | inr h => simp [h]
  exact remove_installation_found_stale confirm hfound hcond

/-- Witness for claim C7: the spec scenario, registry `[("a", "/tmp/a")]`
with `/tmp/a` not existing — success, record gone, no deletion. -/
theorem remove_stale_reports_gone_witness :
    remove_installation (fun _ => false) (fun _ => false) true
        ⟨Defaults.from_dict [], [⟨"a", "/tmp/a"⟩]⟩ "a"
      = some (⟨Defaults.from_dict [], []⟩, ⟨true, []⟩) :=
  remove_stale_reports_gone (fun _ => false) (fun _ => false) true
    ⟨Defaults.from_dict [], [⟨"a", "/tmp/a"⟩]⟩ "a" ⟨"a", "/tmp/a"⟩ rfl (Or.inl rfl)

/-- Claim C8: on a registry containing a live record named `name`, declining
the confirmation prompt makes the remove operation return failure (`False`),
with the installations list unchanged and no directory deleted. -/
theorem remove_declined_no_change (pexists pisdir : String → Bool) (cfg : Config)
    (name : String) (inst : Installation)
    (hfound : cfg.get_installation name = some inst)
    (hex : pexists inst.root = true) (hdir : pisdir inst.root = true) :
    remove_installation pexists pisdir false cfg name = some (cfg, ⟨false, []⟩) := by
  have hcond : (!(pexists inst.root) || !(pisdir inst.root)) = false := by
    simp [hex, hdir]
  exact remove_installation_found_live_declined hfound hcond

/-- Witness for claim C8: the spec scenario, registry `[("b", "/tmp/b")]`
with `/tmp/b` live and the prompt declined — registry unchanged, directory
untouched. -/
theorem remove_declined_no_change_witness :
    remove_installation (fun _ => true) (fun _ => true) false
        ⟨Defaults.from_dict [], [⟨"b", "/tmp/b"⟩]⟩ "b"
      = some (⟨Defaults.from_dict [], [⟨"b", "/tmp/b"⟩]⟩, ⟨false, []⟩) :=
  remove_declined_no_change (fun _ => true) (fun _ => true)
    ⟨Defaults.from_dict [], [⟨"b", "/tmp/b"⟩]⟩ "b" ⟨"b", "/tmp/b"⟩ rfl rfl rfl

/-- Any success (`True`) outcome of remove.py leaves the config with exactly
the first name-matching record erased. -/
theorem remove_installation_ret_true {pexists pisdir : String → Bool} {confirm : Bool}
    {cfg cfg' : Config} {name : String} {r : RemoveResult}
    (h : remove_installation pexists pisdir confirm cfg name = some (cfg', r))
    (hr : r.ret = true) :
    cfg'.installations = cfg.installations.eraseP (fun i => i.name == name) := by
  cases hfound : cfg.get_installation name with
  | none =>
      rw [remove_installation_absent confirm hfound] at h
      simp only [Option.some.injEq, Prod.mk.injEq] at h
      obtain ⟨_, h2⟩ := h
      rw [← h2] at hr
      simp at hr
  | some inst =>
      cases hcond : (!(pexists inst.root) || !(pisdir inst.root)) with
      | true =>
          rw [remove_installation_found_stale confirm hfound hcond] at h
          simp only [Option.some.injEq, Prod.mk.injEq] at h
          obtain ⟨h1, _⟩ := h
          rw [← h1]
      | false =>
          cases hconfirm : confirm with
          | true =>
              subst hconfirm
              rw [remove_installation_found_live_confirmed hfound hcond] at h
              simp only [Option.some.injEq, Prod.mk.injEq] at h
              obtain ⟨h1, _⟩ := h
              rw [← h1]
          | false =>
              subst hconfirm
              rw [remove_installation_found_live_declined hfound hcond] at h
              simp only [Option.some.injEq, Prod.mk.injEq] at h
              obtain ⟨_, h2⟩ := h
              rw [← h2] at hr
              simp at hr

/-- Claim C2: the externally exposed remove-installation entry point (the
spec-modelled `remove_installation_command`, wrapping remove.py's
`remove_installation` and the persist via `write_config`) performs the full
remove-and-persist sequence: on any success path the matching record is
removed from the in-memory registry and the updated config is then persisted
to the config store. The Python entry point returns `None`; the model's
return value is only the explicit state. -/
theorem remove_command_removes_and_persists (pexists pisdir : String → Bool) (confirm : Bool)
    (cfg : Config) (name : String) (store : JDict)
    (cfg' : Config) (store' : JDict) (r : RemoveResult)
    (h : remove_installation_command pexists pisdir confirm cfg name store
      = some (cfg', store', r))
    (hr : r.ret = true) :
    cfg'.installations = cfg.installations.eraseP (fun i => i.name == name)
    ∧ store' = write_config cfg' := by
  unfold remove_installation_command at h
  cases hrem : remove_installation pexists pisdir confirm cfg name with
  | none =>
      rw [hrem] at h
      exact absurd h (by simp)
  | some p =>
      obtain ⟨c2, r2⟩ := p
      rw [hrem] at h
      simp only [Option.some.injEq, Prod.mk.injEq] at h
      obtain ⟨h1, h2, h3⟩ := h
      subst h1
      subst h3
      refine ⟨remove_installation_ret_true hrem hr, ?_⟩
      rw [← h2]
      simp [hr]

/-- Witness for claim C2: removing the stale record "a" removes it from the
registry and the store receives the serialization of the updated config. -/
theorem remove_command_removes_and_persists_witness :
    (⟨Defaults.from_dict [], []⟩ : Config).installations
        = (⟨Defaults.from_dict [], [⟨"a", "/tmp/a"⟩]⟩ : Config).installations.eraseP
            (fun i => i.name == "a")
    ∧ write_config ⟨Defaults.from_dict [], []⟩ = write_config ⟨Defaults.from_dict [], []⟩ :=
  remove_command_removes_and_persists (fun _ => false) (fun _ => false) true
    ⟨Defaults.from_dict [], [⟨"a", "/tmp/a"⟩]⟩ "a" []
    ⟨Defaults.from_dict [], []⟩ (write_config ⟨Defaults.from_dict [], []⟩) ⟨true, []⟩ rfl rfl

end Fabricdw
